import Mathlib

/-!
Verification of the AlertBridge web client (`src/web/static/js/alerts.js`).

The development shallowly embeds the client's connection lifecycle manager,
message dispatcher, alert reconciliation engine and settings handling as
Lean functions, and proves the testable properties of the specification
against them.

Two levels of embedding are used:

* a *typed* level (`Alert`, `Msg`, `handleMessage`, `addOrUpdateAlert`, ...)
  for well-formed payloads, mirroring the source line by line; transition
  events (`Arrived` / `Updated` / `Resolved`) label the branch taken by
  `addOrUpdateAlert`, and side-effect calls (`playSound`,
  `showNotification`, DOM updates) are recorded as an effect list;
* a *dynamic* level (`JValue`, `handleMessageD`, `addOrUpdateAlertD`) in
  which inbound frames are arbitrary parsed JSON values, JavaScript's
  `undefined` is `Option.none`, and a field access or method call that
  would throw a `TypeError` is `Except.error`.  This level settles the
  claims about malformed frames.
-/

namespace AlertBridge

/-- One alert, as delivered by the backend (`data.data` of an `alert`
message).  `status` and `severity` are kept as strings because the source
compares them against string literals.  The JavaScript field `instance`
is a Lean keyword, hence the guillemets. -/
structure Alert where
  id : String
  status : String
  severity : String
  name : String
  «instance» : String
  deriving DecidableEq, Repr

/-- The client's `this.settings` object.  The constructor (lines 10-17)
creates the keys `bridgeServerUrl`, `alertSound`, `resolvedSound`,
`volume`, `autoConnect`, `showNotifications`; `saveSettings` (line 374)
spread-merges an object whose volume key is spelled `notificationVolume`
instead of `volume`.  The two volume fields are `Option` so that the model
can distinguish a key that is present from one that was never written. -/
structure SettingsObj where
  bridgeServerUrl : String
  alertSound : String
  resolvedSound : String
  volume : Option Int
  notificationVolume : Option Int
  autoConnect : Bool
  showNotifications : Bool
  deriving DecidableEq, Repr

/-- The settings object built by the constructor (lines 10-17): `volume`
is present (70), `notificationVolume` is not a key. -/
def defaultSettings : SettingsObj :=
  { bridgeServerUrl := "http://localhost:8000"
    alertSound := "alert.wav"
    resolvedSound := "resolved.wav"
    volume := some 70
    notificationVolume := none
    autoConnect := true
    showNotifications := true }

/-- Transition events of the reconciliation engine: one per branch of
`addOrUpdateAlert` that changes the set. -/
inductive Transition where
  | arrived (a : Alert)
  | updated (a : Alert)
  | resolved (a : Alert)
  deriving DecidableEq, Repr

/-- One uploaded or default sound of the catalog. -/
structure Sound where
  id : String
  name : String
  url : String
  is_default : Bool
  deriving DecidableEq, Repr

/-- Side-effect calls issued while handling a message, in call order. -/
inductive Effect where
  | playSound (name : String)
  | showNotification (title : String) (a : Alert)
  | renderAlerts
  | updateStats
  | updateSoundsUI
  | updateConnectionUI
  | log
  | snackbar (message : String) (isError : Bool)
  | closeSettings
  | setLocalStorage (key : String) (value : SettingsObj)
  | postFetch (url : String)
  | setServerUrlInput (url : String)
  deriving DecidableEq, Repr

/-- JavaScript `Array.prototype.findIndex`: index of the first element
satisfying the callback (`-1`, i.e. `none`, when there is none). -/
def findIndex (p : α → Bool) : List α → Option Nat
  | [] => none
  | x :: xs => if p x then some 0 else (findIndex p xs).map (· + 1)

/-- `addOrUpdateAlert` (lines 159-177).  Returns the new `this.alerts`
together with the transition events emitted and the side-effect calls
made, in source order; `splice(index, 1)` is `List.eraseIdx`,
`this.alerts[index] = alert` is `List.set`, `push` is append. -/
def addOrUpdateAlert (s : SettingsObj) (alerts : List Alert) (alert : Alert) :
    List Alert × List Transition × List Effect :=
  match findIndex (fun a => a.id == alert.id) alerts with
  | some index =>
    if alert.status = "resolved" then
      (alerts.eraseIdx index, [.resolved alert],
        [.playSound s.resolvedSound, .renderAlerts, .updateStats])
    else
      (alerts.set index alert, [.updated alert],
        [.renderAlerts, .updateStats])
  | none =>
    if alert.status = "firing" then
      (alerts ++ [alert], [.arrived alert],
        [.playSound s.alertSound, .showNotification "Новый алерт" alert,
          .renderAlerts, .updateStats])
    else
      (alerts, [], [.renderAlerts, .updateStats])

/-- The alert-set invariant of §3: ids are pairwise distinct, and no
retained entry has status `resolved`. -/
def alertInvariant (l : List Alert) : Prop :=
  (l.map Alert.id).Nodup ∧ ∀ a ∈ l, a.status ≠ "resolved"

instance (l : List Alert) : Decidable (alertInvariant l) := by
  unfold alertInvariant; infer_instance

/-- Fold a sequence of incoming single-alert events through
`addOrUpdateAlert`, keeping only the evolving alert set. -/
def applyAll (s : SettingsObj) (init : List Alert) (seq : List Alert) : List Alert :=
  seq.foldl (fun acc a => (addOrUpdateAlert s acc a).1) init

/-- The typed inbound message taxonomy of `handleMessage` (lines 80-109).
The `unknown` constructor covers every unrecognized `type` tag. -/
inductive Msg where
  | connection (message : String)
  | status (connected_to_bridge : Bool)
  | alert (a : Alert)
  | alerts_list (alerts : List Alert)
  | sounds_list (sounds : List Sound)
  | bridge_message (message : Msg)
  | unknown
  deriving Repr

/-- The client-state fields touched by `handleMessage`. -/
structure ClientState where
  alerts : List Alert
  sounds : List Sound
  bridgeConnected : Bool
  deriving DecidableEq, Repr

/-- `handleMessage` (lines 80-109) at the typed level: dispatch one decoded
message, returning the new state, the transitions emitted and the
side-effect calls made. -/
def handleMessage (s : SettingsObj) (st : ClientState) : Msg → ClientState × List Transition × List Effect
  | .connection _ => (st, [], [.log])
  | .status b => ({ st with bridgeConnected := b }, [], [.updateConnectionUI])
  | .alert a =>
    let r := addOrUpdateAlert s st.alerts a
    ({ st with alerts := r.1 }, r.2.1, r.2.2)
  | .alerts_list xs => ({ st with alerts := xs }, [], [.renderAlerts])
  | .sounds_list xs => ({ st with sounds := xs }, [], [.updateSoundsUI])
  | .bridge_message m =>
    match m with
    | .alert a =>
      let r := addOrUpdateAlert s st.alerts a
      ({ st with alerts := r.1 }, r.2.1, r.2.2)
    | _ => (st, [], [])
  | .unknown => (st, [], [.log])

/-! ## Connection lifecycle (lines 18-20, 46-78, 117-130) -/

/-- `this.maxReconnectAttempts` (line 19). -/
def maxReconnectAttempts : Nat := 5

/-- `this.reconnectDelay` in milliseconds (line 20). -/
def reconnectDelay : Nat := 3000

/-- The connection-related fields of the client. -/
structure ConnState where
  connected : Bool
  bridgeConnected : Bool
  reconnectAttempts : Nat
  deriving DecidableEq, Repr

/-- Externally visible actions taken by the connection handlers. -/
inductive ConnEffect where
  | wsClose
  | startWebSocket
  | send (t : String)
  | updateConnectionUI
  | scheduleReconnect (delayMs : Nat)
  deriving DecidableEq, Repr

/-- The `ws.onopen` handler (lines 50-56): mark connected, refresh the UI
and request the alert snapshot and the sound catalog. -/
def onOpen (s : ConnState) : ConnState × List ConnEffect :=
  ({ s with connected := true },
    [.updateConnectionUI, .send "get_alerts", .send "get_sounds"])

/-- The `ws.onclose` handler (lines 58-68): clear both liveness flags,
refresh the UI, and — whenever the retry counter is below the maximum —
increment it and schedule a reconnect after `reconnectDelay`.  The same
handler runs for user-initiated closes and unexpected closures alike:
nothing in the source distinguishes them, and no `clearTimeout` exists
anywhere in the file. -/
def onClose (s : ConnState) : ConnState × List ConnEffect :=
  let s1 : ConnState := { s with connected := false, bridgeConnected := false }
  if s1.reconnectAttempts < maxReconnectAttempts then
    ({ s1 with reconnectAttempts := s1.reconnectAttempts + 1 },
      [.updateConnectionUI, .scheduleReconnect reconnectDelay])
  else
    (s1, [.updateConnectionUI])

/-- `toggleConnection` (lines 117-130): when connected, call `ws.close()`
(the browser will then fire `onClose`); when disconnected, reset the retry
counter and open a fresh socket. -/
def toggleConnection (s : ConnState) : ConnState × List ConnEffect :=
  if s.connected then
    (s, [.wsClose])
  else
    ({ s with reconnectAttempts := 0 }, [.startWebSocket])

/-- The state after one unexpected closure (state part of `onClose`). -/
def closeStep (s : ConnState) : ConnState := (onClose s).1

/-! ## Settings saving (lines 353-386, 516-518) -/

/-- The values read from the settings form by `saveSettings`
(lines 354-361); this is the `newSettings` object, whose volume key is
spelled `notificationVolume`. -/
structure SettingsForm where
  bridgeServerUrl : String
  autoConnect : Bool
  showNotifications : Bool
  notificationVolume : Int
  alertSound : String
  resolvedSound : String
  deriving DecidableEq, Repr

/-- Response of `POST /api/settings/update/`. -/
structure SaveResponse where
  success : Bool
  deriving DecidableEq, Repr

/-- The spread merge `{ ...this.settings, ...newSettings }` (line 374):
every key of `newSettings` overwrites the old object, keys missing from
`newSettings` survive.  `newSettings` has no `volume` key, so the old
`volume` is retained and the slider value lands in the separate key
`notificationVolume`. -/
def mergeSave (old : SettingsObj) (f : SettingsForm) : SettingsObj :=
  { old with
    bridgeServerUrl := f.bridgeServerUrl
    autoConnect := f.autoConnect
    showNotifications := f.showNotifications
    notificationVolume := some f.notificationVolume
    alertSound := f.alertSound
    resolvedSound := f.resolvedSound }

/-- `saveSettings` (lines 353-386): POST the form values; on success merge
them into `this.settings`, show a snackbar, close the modal, and sync the
server-url input when it differs; on failure only show an error snackbar.
`serverUrlInput` is the current value of the `server-url` DOM input. -/
def saveSettings (old : SettingsObj) (f : SettingsForm) (resp : SaveResponse)
    (serverUrlInput : String) : SettingsObj × List Effect :=
  if resp.success then
    let ns := mergeSave old f
    (ns,
      [.postFetch "/api/settings/update/", .snackbar "Настройки сохранены" false,
        .closeSettings] ++
      (if ns.bridgeServerUrl ≠ serverUrlInput then
        [.setServerUrlInput ns.bridgeServerUrl]
      else []))
  else
    (old, [.postFetch "/api/settings/update/", .snackbar "Ошибка сохранения" true])

/-- `saveSettingsToStorage` (lines 516-518): write the settings blob under
the fixed key.  Defined in the source but never called by any code path. -/
def saveSettingsToStorage (s : SettingsObj) : List Effect :=
  [.setLocalStorage "alertbridge-settings" s]

/-! ## Dynamic level: frames as parsed JSON values

`ws.onmessage` (lines 74-77) runs `JSON.parse` and hands the result to
`handleMessage` with no validation, so malformed frames must be modelled
over raw JSON values.  `Option JValue` stands for a JavaScript value that
may be `undefined` (`none`); operations that would throw a `TypeError`
return `Except.error ()`. -/

/-- A parsed JSON value.  Object keys are unique (`JSON.parse` keeps one
entry per key). -/
inductive JValue where
  | jNull
  | jBool (b : Bool)
  | jNum (n : Int)
  | jStr (s : String)
  | jArr (xs : List JValue)
  | jObj (fields : List (String × JValue))

/-- JavaScript property read `v.k`: throws on `undefined`/`null`, looks up
the key on objects, and is `undefined` on every other value. -/
def jsGetField : Option JValue → String → Except Unit (Option JValue)
  | none, _ => .error ()
  | some .jNull, _ => .error ()
  | some (.jObj fields), k => .ok ((fields.find? (fun p => p.1 == k)).map (·.2))
  | some _, _ => .ok none

/-- JavaScript strict equality `===` restricted to the values that occur
here.  `undefined === undefined` and `null === null` hold; primitives
compare by value; arrays and objects compare by reference, and two
separately parsed frames are never the same reference, so they compare
unequal. -/
def jsEq : Option JValue → Option JValue → Bool
  | none, none => true
  | some .jNull, some .jNull => true
  | some (.jBool a), some (.jBool b) => a == b
  | some (.jNum a), some (.jNum b) => a == b
  | some (.jStr a), some (.jStr b) => a == b
  | _, _ => false

/-- `Array.prototype.findIndex` with a callback that can throw. -/
def findIndexD (p : JValue → Except Unit Bool) : List JValue → Except Unit (Option Nat)
  | [] => .ok none
  | x :: xs => do
    if (← p x) then
      return some 0
    else
      return (← findIndexD p xs).map (· + 1)

/-- Side-effect calls at the dynamic level. -/
inductive DEffect where
  | log
  | updateConnectionUI
  | renderAlerts
  | updateStats
  | updateSoundsUI
  | playSound (name : String)
  | showNotification (title : String) (payload : JValue)

/-- The client-state fields touched by `handleMessage`, holding raw
JavaScript values: `alerts` and `sounds` are whatever was last assigned
(`none` models `undefined`), `bridgeConnected` is whatever
`data.connected_to_bridge` was. -/
structure DState where
  alerts : Option JValue
  sounds : Option JValue
  bridgeConnected : Option JValue
  settings : SettingsObj

/-- `addOrUpdateAlert` (lines 159-177) on a raw payload: `alert.id` throws
when the payload is `undefined` or `null`; `this.alerts.findIndex` throws
when `this.alerts` is not an array. -/
def addOrUpdateAlertD (alert : Option JValue) (st : DState) :
    Except Unit (DState × List DEffect) :=
  match alert with
  | none => .error ()
  | some av => do
    let aid ← jsGetField (some av) "id"
    match st.alerts with
    | some (.jArr xs) => do
      let index ← findIndexD (fun a => (jsGetField (some a) "id").map (fun i => jsEq i aid)) xs
      match index with
      | some i => do
        let stt ← jsGetField (some av) "status"
        if jsEq stt (some (.jStr "resolved")) then
          .ok ({ st with alerts := some (.jArr (xs.eraseIdx i)) },
            [.playSound st.settings.resolvedSound, .renderAlerts, .updateStats])
        else
          .ok ({ st with alerts := some (.jArr (xs.set i av)) },
            [.renderAlerts, .updateStats])
      | none => do
        let stt ← jsGetField (some av) "status"
        if jsEq stt (some (.jStr "firing")) then
          .ok ({ st with alerts := some (.jArr (xs ++ [av])) },
            [.playSound st.settings.alertSound, .showNotification "Новый алерт" av,
              .renderAlerts, .updateStats])
        else
          .ok (st, [.renderAlerts, .updateStats])
    | _ => .error ()

/-- `handleMessage` (lines 80-109) on a raw parsed frame.  `switch
(data.type)` compares `data.type` with string literals under `===`; a
missing or non-string tag falls through to the `default` branch, which
only logs. -/
def handleMessageD (data : JValue) (st : DState) : Except Unit (DState × List DEffect) :=
  match jsGetField (some data) "type" with
  | .error e => .error e
  | .ok t =>
  if jsEq t (some (.jStr "connection")) then
    .ok (st, [.log])
  else if jsEq t (some (.jStr "status")) then do
    let b ← jsGetField (some data) "connected_to_bridge"
    .ok ({ st with bridgeConnected := b }, [.updateConnectionUI])
  else if jsEq t (some (.jStr "alert")) then do
    let d ← jsGetField (some data) "data"
    addOrUpdateAlertD d st
  else if jsEq t (some (.jStr "alerts_list")) then do
    let a ← jsGetField (some data) "alerts"
    .ok ({ st with alerts := a }, [.renderAlerts])
  else if jsEq t (some (.jStr "sounds_list")) then do
    let snds ← jsGetField (some data) "sounds"
    .ok ({ st with sounds := snds }, [.updateSoundsUI])
  else if jsEq t (some (.jStr "bridge.message")) then do
    let m ← jsGetField (some data) "message"
    let mt ← jsGetField m "type"
    if jsEq mt (some (.jStr "alert")) then do
      let d ← jsGetField m "data"
      addOrUpdateAlertD d st
    else
      .ok (st, [])
  else
    .ok (st, [.log])

/-! ## Concrete fixtures used by witnesses and counterexamples -/

/-- A firing critical alert (the §8 scenario). -/
def alertA : Alert :=
  { id := "a1", status := "firing", severity := "critical",
    name := "CPUHigh", «instance» := "host1" }

/-- The resolution of `alertA`. -/
def alertARes : Alert := { alertA with status := "resolved" }

/-- A second, unrelated firing alert. -/
def alertB : Alert :=
  { id := "a2", status := "firing", severity := "warning",
    name := "DiskFull", «instance» := "host2" }

/-- Empty client state (constructor, lines 8-9). -/
def initialClientState : ClientState :=
  { alerts := [], sounds := [], bridgeConnected := false }

/-- A snapshot with a duplicated id and a resolved entry. -/
def badSnapshot : List Alert :=
  [alertA, alertA, { alertB with status := "resolved" }]

/-- Settings-form values that move the volume slider to 30 and keep
everything else at its default. -/
def savedForm30 : SettingsForm :=
  { bridgeServerUrl := "http://localhost:8000", autoConnect := true,
    showNotifications := true, notificationVolume := 30,
    alertSound := "alert.wav", resolvedSound := "resolved.wav" }

/-- Recognizes the `setLocalStorage` effect. -/
def isLocalStorageWrite : Effect → Bool
  | .setLocalStorage _ _ => true
  | _ => false

/-- The `type` tags `handleMessage` recognizes (lines 82-105). -/
def recognizedTags : List String :=
  ["connection", "status", "alert", "alerts_list", "sounds_list", "bridge.message"]

/-- A dynamic-level state holding one alert, an empty sound catalog and
the default settings. -/
def dStateBefore : DState :=
  { alerts := some (.jArr [.jObj [("id", .jStr "a1"), ("status", .jStr "firing")]])
    sounds := some (.jArr [])
    bridgeConnected := some (.jBool false)
    settings := defaultSettings }

/-- A structurally invalid frame: the recognized tag `alerts_list` but no
`alerts` payload. -/
def malformedFrame : JValue := .jObj [("type", .jStr "alerts_list")]

/-- A structurally valid frame with an unrecognized tag. -/
def unknownFrame : JValue := .jObj [("type", .jStr "ping")]

/-- A connected channel with a fresh retry counter. -/
def connectedFresh : ConnState :=
  { connected := true, bridgeConnected := true, reconnectAttempts := 0 }

/-- A closed channel whose retry counter has reached the maximum. -/
def closedExhausted : ConnState :=
  { connected := false, bridgeConnected := false, reconnectAttempts := 5 }

/-! ## Helper lemmas -/

theorem findIndex_eq_none {p : α → Bool} :
    ∀ {l : List α}, findIndex p l = none → ∀ x ∈ l, p x = false := by
  intro l
  induction l with
  | nil => intro _ x hx; cases hx
  | cons a as ih =>
    intro h x hx
    by_cases hpa : p a
    · simp [findIndex, hpa] at h
    · rcases List.mem_cons.mp hx with rfl | hmem
      · exact Bool.eq_false_iff.mpr hpa
      · refine ih ?_ x hmem
        simp [findIndex, hpa] at h
        simp [h]

theorem findIndex_eq_none_of {p : α → Bool} :
    ∀ {l : List α}, (∀ x ∈ l, p x = false) → findIndex p l = none := by
  intro l
  induction l with
  | nil => intro _; rfl
  | cons a as ih =>
    intro h
    have hpa : p a = false := h a (List.mem_cons_self a as)
    have hrest : findIndex p as = none := ih fun x hx => h x (List.mem_cons_of_mem a hx)
    simp [findIndex, hpa, hrest]

theorem findIndex_eq_some {p : α → Bool} :
    ∀ {l : List α} {i : Nat}, findIndex p l = some i →
      ∃ x, l.get? i = some x ∧ p x = true := by
  intro l
  induction l with
  | nil => intro i h; cases h
  | cons a as ih =>
    intro i h
    by_cases hpa : p a
    · simp [findIndex, hpa] at h
      exact h ▸ ⟨a, rfl, hpa⟩
    · simp [findIndex, hpa] at h
      rcases h with ⟨j, hj, rfl⟩
      rcases ih hj with ⟨x, hx, hpx⟩
      exact ⟨x, hx, hpx⟩

theorem map_set_of_get {f : α → β} :
    ∀ (l : List α) (i : Nat) (a b : α),
      l.get? i = some b → f b = f a → (l.set i a).map f = l.map f := by
  intro l
  induction l with
  | nil => intro i a b h; cases h
  | cons x xs ih =>
    intro i a b h hf
    cases i with
    | zero =>
      cases h
      simp [List.set, hf]
    | succ j =>
      have hset : (x :: xs).set (j + 1) a = x :: xs.set j a := rfl
      rw [hset, List.map_cons, List.map_cons, ih j a b h hf]

theorem eraseIdx_sublist : ∀ (l : List α) (i : Nat), List.Sublist (l.eraseIdx i) l := by
  intro l
  induction l with
  | nil => intro i; simp [List.eraseIdx]
  | cons x xs ih =>
    intro i
    cases i with
    | zero => exact List.sublist_cons_self x xs
    | succ j => exact List.Sublist.cons₂ x (ih j)

/-- One `applySingle` step preserves the alert-set invariant. -/
theorem addOrUpdateAlert_invariant (s : SettingsObj) (l : List Alert) (a : Alert)
    (h : alertInvariant l) : alertInvariant (addOrUpdateAlert s l a).1 := by
  obtain ⟨hnd, hst⟩ := h
  unfold addOrUpdateAlert
  cases hf : findIndex (fun x => x.id == a.id) l with
  | some i =>
    by_cases hres : a.status = "resolved"
    · simp only [hres, if_pos rfl]
      constructor
      · exact hnd.sublist ((eraseIdx_sublist l i).map Alert.id)
      · intro x hx
        exact hst x ((eraseIdx_sublist l i).subset hx)
    · simp only [if_neg hres]
      rcases findIndex_eq_some hf with ⟨b, hb, hpb⟩
      have hid : b.id = a.id := eq_of_beq hpb
      constructor
      · rw [map_set_of_get l i a b hb hid]
        exact hnd
      · intro x hx
        rcases List.mem_or_eq_of_mem_set hx with hmem | rfl
        · exact hst x hmem
        · exact hres
  | none =>
    by_cases hfir : a.status = "firing"
    · simp only [if_pos hfir]
      have hnotin : a.id ∉ l.map Alert.id := by
        intro hmem
        rcases List.mem_map.mp hmem with ⟨x, hx, hxid⟩
        have hfalse := findIndex_eq_none hf x hx
        simp [hxid] at hfalse
      constructor
      · have hdisj : (l.map Alert.id).Disjoint [a.id] := by
          intro x hx hxa
          rcases List.mem_singleton.mp hxa with rfl
          exact hnotin hx
        rw [List.map_append, List.map_singleton]
        exact List.nodup_append.mpr ⟨hnd, List.nodup_singleton a.id, hdisj⟩
      · intro x hx
        rcases List.mem_append.mp hx with hmem | hmem
        · exact hst x hmem
        · rcases List.mem_singleton.mp hmem with rfl
          rw [hfir]
          decide
    · simp only [if_neg hfir]
      exact ⟨hnd, hst⟩

/-! ## Claim theorems -/

/-- C1: for every sequence of `applySingle` calls (`addOrUpdateAlert`)
starting from an alert set with pairwise-distinct ids and no resolved
entries, the resulting set never contains two entries with the same id
and never contains an entry whose last-applied status was `resolved`. -/
theorem C1_applySingle_preserves_invariant (s : SettingsObj) (seq : List Alert)
    (init : List Alert) (h : alertInvariant init) :
    alertInvariant (applyAll s init seq) := by
  induction seq generalizing init with
  | nil => exact h
  | cons a as ih => exact ih _ (addOrUpdateAlert_invariant s init a h)

theorem C1_witness :
    alertInvariant [] ∧
    alertInvariant (applyAll defaultSettings [] [alertA, alertB, alertARes]) :=
  ⟨by decide, C1_applySingle_preserves_invariant defaultSettings
    [alertA, alertB, alertARes] [] (by decide)⟩

/-- C2: applying `{id: X, status: firing}` to the empty set and then
`{id: X, status: resolved}` yields the empty set, emits exactly one
`Arrived` transition on the first call (with the alert sound played and a
notification raised) and exactly one `Resolved` transition on the second
(with the resolved sound played), and zero `Arrived` events after the
first. -/
theorem C2_fire_then_resolve (s : SettingsObj) (a b : Alert)
    (hid : b.id = a.id) (ha : a.status = "firing") (hb : b.status = "resolved") :
    addOrUpdateAlert s [] a =
      ([a], [.arrived a],
        [.playSound s.alertSound, .showNotification "Новый алерт" a,
          .renderAlerts, .updateStats]) ∧
    addOrUpdateAlert s [a] b =
      ([], [.resolved b],
        [.playSound s.resolvedSound, .renderAlerts, .updateStats]) := by
  constructor
  · unfold addOrUpdateAlert
    simp [findIndex, ha]
  · unfold addOrUpdateAlert
    have hba : (a.id == b.id) = true := by simp [hid]
    simp [findIndex, hba, hb, List.eraseIdx]

theorem C2_witness :
    (alertARes.id = alertA.id ∧ alertA.status = "firing" ∧
      alertARes.status = "resolved") ∧
    addOrUpdateAlert defaultSettings [] alertA =
      ([alertA], [.arrived alertA],
        [.playSound defaultSettings.alertSound,
          .showNotification "Новый алерт" alertA, .renderAlerts, .updateStats]) ∧
    addOrUpdateAlert defaultSettings [alertA] alertARes =
      ([], [.resolved alertARes],
        [.playSound defaultSettings.resolvedSound, .renderAlerts, .updateStats]) :=
  ⟨⟨rfl, rfl, rfl⟩,
    (C2_fire_then_resolve defaultSettings alertA alertARes rfl rfl rfl).1,
    (C2_fire_then_resolve defaultSettings alertA alertARes rfl rfl rfl).2⟩

/-- C5: the `alerts_list` message replaces the local set wholesale with
the provided sequence and emits zero transition events, with rendering as
the only side-effect call — in particular no sound and no notification —
regardless of the prior state. -/
theorem C5_snapshot_no_transitions (s : SettingsObj) (st : ClientState)
    (xs : List Alert) :
    (handleMessage s st (.alerts_list xs)).1 = { st with alerts := xs } ∧
    (handleMessage s st (.alerts_list xs)).2.1 = [] ∧
    (handleMessage s st (.alerts_list xs)).2.2 = [.renderAlerts] :=
  ⟨rfl, rfl, rfl⟩

/-- C6: applying `{id: Y, status: resolved}` to a set with no entry for
`Y` is a no-op: the set is unchanged, zero transitions are emitted, and
the only side-effect calls are the unconditional re-render and stats
refresh — no sound, no notification, no error. -/
theorem C6_resolve_absent_noop (s : SettingsObj) (l : List Alert) (a : Alert)
    (hid : ∀ x ∈ l, x.id ≠ a.id) (hst : a.status = "resolved") :
    addOrUpdateAlert s l a = (l, [], [.renderAlerts, .updateStats]) := by
  have hnone : findIndex (fun x => x.id == a.id) l = none :=
    findIndex_eq_none_of (fun x hx => by simp [hid x hx])
  have hfir : a.status ≠ "firing" := by rw [hst]; decide
  unfold addOrUpdateAlert
  rw [hnone]
  simp [hfir]

theorem C6_witness :
    ((∀ x ∈ [alertB], x.id ≠ alertARes.id) ∧ alertARes.status = "resolved") ∧
    addOrUpdateAlert defaultSettings [alertB] alertARes =
      ([alertB], [], [.renderAlerts, .updateStats]) :=
  ⟨⟨by decide, rfl⟩,
    C6_resolve_absent_noop defaultSettings [alertB] alertARes (by decide) rfl⟩

/-- C10: the `alerts_list` handler stores the provided sequence verbatim —
no deduplication by id, no dropping of resolved entries — so a single
snapshot can leave the local set with a duplicate id and a resolved
entry; concretely, `badSnapshot` is stored as-is, its id `a1` occurs
twice, and it retains a resolved entry. -/
theorem C10_snapshot_verbatim :
    (∀ (s : SettingsObj) (st : ClientState) (xs : List Alert),
      (handleMessage s st (.alerts_list xs)).1.alerts = xs) ∧
    (handleMessage defaultSettings initialClientState
      (.alerts_list badSnapshot)).1.alerts = badSnapshot ∧
    (badSnapshot.map Alert.id).count "a1" = 2 ∧
    badSnapshot.countP (fun a => a.status == "resolved") = 1 :=
  ⟨fun _ _ _ => rfl, rfl, by decide, by decide⟩

theorem closeStep_attempts (s : ConnState) :
    (closeStep s).reconnectAttempts =
      if s.reconnectAttempts < maxReconnectAttempts then
        s.reconnectAttempts + 1
      else s.reconnectAttempts := by
  by_cases h : s.reconnectAttempts < maxReconnectAttempts <;>
    simp [closeStep, onClose, h]

theorem closeStep_iterate (n : Nat) (hn : n ≤ maxReconnectAttempts)
    (s : ConnState) (h : s.reconnectAttempts = 0) :
    (closeStep^[n] s).reconnectAttempts = n := by
  induction n with
  | zero => simpa using h
  | succ k ih =>
    rw [Function.iterate_succ_apply', closeStep_attempts,
      ih (Nat.le_of_succ_le hn)]
    have hk : k < maxReconnectAttempts := Nat.lt_of_lt_of_le (Nat.lt_succ_self k) hn
    simp [hk]

/-- C3: the source distinguishes no user-initiated close.  In a connected
state, `toggleConnection` merely calls `ws.close()`; the ensuing `onclose`
handler runs the same code as for an unexpected closure and, with the
retry counter at 0, increments it and schedules a reconnect timer after
`reconnectDelay` — so a user-initiated disconnect does trigger the
automatic-reconnect path (and no `clearTimeout` exists that could cancel
a pending timer). -/
theorem C3_user_close_schedules_reconnect :
    (toggleConnection connectedFresh).2 = [.wsClose] ∧
    (onClose connectedFresh).2 =
      [.updateConnectionUI, .scheduleReconnect reconnectDelay] ∧
    (onClose connectedFresh).1.reconnectAttempts = 1 := by
  refine ⟨rfl, rfl, rfl⟩

theorem onClose_at_max (s : ConnState)
    (hs : maxReconnectAttempts ≤ s.reconnectAttempts) :
    onClose s =
      ({ connected := false, bridgeConnected := false,
          reconnectAttempts := s.reconnectAttempts }, [.updateConnectionUI]) := by
  have hlt : ¬ s.reconnectAttempts < maxReconnectAttempts := Nat.not_lt.mpr hs
  simp [onClose, hlt]

/-- C4: once the retry counter reaches `maxReconnectAttempts` (5), a
closure schedules no further reconnect and leaves the channel closed; each
closure below the bound increments the counter by exactly one and
schedules one retry; a successful open never touches the counter; the
user-initiated reconnect resets it to 0, and no other operation does
(a close increments or preserves it, an open and a user close while
connected preserve it); and from a fresh counter, five consecutive
closures drive the counter to 5, after which a sixth closure schedules
nothing. -/
theorem C4_bounded_retries :
    (∀ s : ConnState, maxReconnectAttempts ≤ s.reconnectAttempts →
      (onClose s).1.connected = false ∧
      (onClose s).1.reconnectAttempts = s.reconnectAttempts ∧
      (onClose s).2 = [.updateConnectionUI]) ∧
    (∀ s : ConnState, s.reconnectAttempts < maxReconnectAttempts →
      (onClose s).1.reconnectAttempts = s.reconnectAttempts + 1 ∧
      (onClose s).2 = [.updateConnectionUI, .scheduleReconnect reconnectDelay]) ∧
    (∀ s : ConnState, (onOpen s).1.reconnectAttempts = s.reconnectAttempts) ∧
    (∀ s : ConnState, s.connected = false →
      (toggleConnection s).1.reconnectAttempts = 0 ∧
      (toggleConnection s).2 = [.startWebSocket]) ∧
    (∀ s : ConnState, s.connected = true → toggleConnection s = (s, [.wsClose])) ∧
    (∀ s : ConnState, s.reconnectAttempts = 0 →
      (closeStep^[5] s).reconnectAttempts = 5 ∧
      (onClose (closeStep^[5] s)).2 = [.updateConnectionUI] ∧
      (onClose (closeStep^[5] s)).1.connected = false) := by
  refine ⟨?_, ?_, ?_, ?_, ?_, ?_⟩
  · intro s hs
    have hlt : ¬ s.reconnectAttempts < maxReconnectAttempts := Nat.not_lt.mpr hs
    simp [onClose, hlt]
  · intro s hs
    simp [onClose, hs]
  · intro s
    rfl
  · intro s hs
    simp [toggleConnection, hs]
  · intro s hs
    simp [toggleConnection, hs]
  · intro s hs
    have h5 : (closeStep^[5] s).reconnectAttempts = 5 :=
      closeStep_iterate 5 (Nat.le_refl _) s hs
    have hge : maxReconnectAttempts ≤ (closeStep^[5] s).reconnectAttempts := by
      rw [h5]; decide
    rw [onClose_at_max _ hge]
    exact ⟨h5, rfl, rfl⟩

theorem C4_witness :
    (maxReconnectAttempts ≤ closedExhausted.reconnectAttempts ∧
      (onClose closedExhausted).2 = [.updateConnectionUI]) ∧
    ((closeStep^[5] connectedFresh).reconnectAttempts = 5) :=
  ⟨⟨by decide, (C4_bounded_retries.1 closedExhausted (by decide)).2.2⟩,
    (C4_bounded_retries.2.2.2.2.2 connectedFresh rfl).1⟩

/-- C8: `saveSettings` does not replace the settings atomically — line 374
spread-merges the form object over the old settings, and because the form
spells its volume key `notificationVolume` while the stored object and the
playback path use `volume`, a successful save leaves the old `volume`
untouched (70) and parks the new value (30) under the separate
`notificationVolume` key: a partial merge in which the saved volume never
takes effect. -/
theorem C8_volume_survives_save :
    ((saveSettings defaultSettings savedForm30 { success := true }
      "http://localhost:8000").1).volume = some 70 ∧
    ((saveSettings defaultSettings savedForm30 { success := true }
      "http://localhost:8000").1).notificationVolume = some 30 ∧
    defaultSettings.volume = some 70 ∧
    savedForm30.notificationVolume = 30 := by
  refine ⟨rfl, rfl, rfl, rfl⟩

/-- C9: no code path writes the settings blob to local storage —
`saveSettings` never issues a `setLocalStorage` effect, for any prior
settings, form values, server response or input state, even though
`saveSettingsToStorage` (which would write the blob under the key
`alertbridge-settings`) exists in the source; it is never called. -/
theorem C9_save_never_persists :
    (∀ (old : SettingsObj) (f : SettingsForm) (resp : SaveResponse)
      (u : String),
      ((saveSettings old f resp u).2.filter isLocalStorageWrite) = []) ∧
    (∀ s : SettingsObj, saveSettingsToStorage s =
      [.setLocalStorage "alertbridge-settings" s]) := by
  constructor
  · intro old f resp u
    unfold saveSettings
    by_cases hs : resp.success
    · simp only [hs, if_true]
      by_cases hu : (mergeSave old f).bridgeServerUrl ≠ u
      · simp [hu, isLocalStorageWrite]
      · simp [hu, isLocalStorageWrite]
    · simp only [hs, if_false]
      rfl
  · intro s
    rfl

/-- C7 counterexample: the claim fails as stated.  The structurally
invalid frame `{"type":"alerts_list"}` (recognized tag, missing `alerts`
payload) is not dropped: it overwrites the alert set — previously a
one-element array — with `undefined`.  Moreover the frame `null` (valid
JSON) makes the handler throw (`data.type` on `null`) rather than log and
drop. -/
theorem C7_counterexample :
    handleMessageD malformedFrame dStateBefore =
      .ok ({ dStateBefore with alerts := none }, [.renderAlerts]) ∧
    dStateBefore.alerts =
      some (.jArr [.jObj [("id", .jStr "a1"), ("status", .jStr "firing")]]) ∧
    ({ dStateBefore with alerts := none } : DState).alerts ≠ dStateBefore.alerts ∧
    handleMessageD .jNull dStateBefore = .error () := by
  refine ⟨rfl, rfl, ?_, rfl⟩
  intro h
  simp [dStateBefore] at h

/-- C7 amended: every inbound frame that is structurally valid JSON and
whose `type` tag is unrecognized (missing, not a string, or not one of the
six recognized tags) is only logged and dropped: the alert set, sound
catalog, connection state and settings are unchanged and no transition
side effect is issued.  (Frames with recognized tags are not validated,
and a malformed one can mutate state or throw — see the counterexample.) -/
theorem C7_unknown_tag_only_logged (data : JValue) (st : DState)
    (t : Option JValue)
    (h1 : jsGetField (some data) "type" = .ok t)
    (h2 : ∀ tag ∈ recognizedTags, jsEq t (some (.jStr tag)) = false) :
    handleMessageD data st = .ok (st, [.log]) := by
  have c1 := h2 "connection" (by decide)
  have c2 := h2 "status" (by decide)
  have c3 := h2 "alert" (by decide)
  have c4 := h2 "alerts_list" (by decide)
  have c5 := h2 "sounds_list" (by decide)
  have c6 := h2 "bridge.message" (by decide)
  unfold handleMessageD
  rw [h1]
  simp [c1, c2, c3, c4, c5, c6]

theorem C7_witness :
    (jsGetField (some unknownFrame) "type" = .ok (some (.jStr "ping")) ∧
      ∀ tag ∈ recognizedTags,
        jsEq (some (.jStr "ping")) (some (.jStr tag)) = false) ∧
    handleMessageD unknownFrame dStateBefore = .ok (dStateBefore, [.log]) :=
  ⟨⟨rfl, by decide⟩,
    C7_unknown_tag_only_logged unknownFrame dStateBefore
      (some (.jStr "ping")) rfl (by decide)⟩

end AlertBridge
